import Mathlib

/-
  Verification development for `shodan_busqueda.py`, a console client for the
  Shodan host-search API.  The script is a single linear pipeline:

    build_query  →  http_get_shodan (one GET per page)  →  fetch_all
    (pagination + (ip, port) deduplication)  →  report printing.

  The embedding below translates each function of the script into a pure
  Lean definition.  Effects are made explicit:

  * the network is an environment `net : String → NetResult α`
    (`http_get_shodan` level) or `fp : String → Nat → String → PyResult Response`
    (`fetch_all` level, standing for `http_get_shodan` applied to a fixed
    network, key and query, as in the script where `fetch_all` calls
    `http_get_shodan(query, page, facets)` directly);
  * `raise SystemExit(msg)` becomes the `.sysExit msg` outcome, exceptions
    raised by the `requests` library (connection errors, timeouts) become
    `.exn msg`; the `try/except SystemExit` in the pagination loop therefore
    catches exactly the `.sysExit` outcome, as in the source;
  * console output is kept as ghost data: the pages requested, the warnings
    written to stderr, and the sequence of report blocks printed by `main`
    (the pretty-printing internals of the report are presentation-only and
    are carried as events holding exactly the data passed to them);
  * `time.sleep` has no observable effect in a pure model; the `sleep_s`
    parameter is kept but unused.

  Machine-level caveats of the translation (documented, not modelled):
  Python `str.lower`/`str.strip` handle full Unicode case folding and
  whitespace; the model implements the ASCII fragment, which is exact for
  the filter syntax and keyword `"org:"` the claims are about.
-/

namespace Shodan

/-- ASCII fragment of the whitespace set stripped by Python `str.strip()`. -/
def isPyWs (c : Char) : Bool :=
  c == ' ' || c == '\t' || c == '\n' || c == '\r' || c == '\x0b' || c == '\x0c'

/-- Python `str.strip()` on the character list: drop whitespace from both ends. -/
def pyStripList (l : List Char) : List Char :=
  ((l.dropWhile isPyWs).reverse.dropWhile isPyWs).reverse

/-- Python `str.strip()`. -/
def pyStrip (s : String) : String :=
  String.mk (pyStripList s.data)

/-- Python `str.lower()` (ASCII case folding, character by character). -/
def pyLower (s : String) : String :=
  String.mk (s.data.map Char.toLower)

/-- Python substring test `needle in hay` on character lists. -/
def strContains (needle : List Char) : List Char → Bool
  | [] => needle.isEmpty
  | c :: rest => needle.isPrefixOf (c :: rest) || strContains needle rest

/-! ### Configuration constants of the script -/

/-- `SHODAN_API_KEY` constant of the script. -/
def SHODAN_API_KEY : String := "XXXXXXX"

/-- `CITY_FILTER` constant of the script (`None`). -/
def CITY_FILTER : Option String := none

/-- `ADDITIONAL_FILTERS` constant of the script. -/
def ADDITIONAL_FILTERS : String := ""

/-- `FACETS` constant of the script. -/
def FACETS : String := ""

/-- `MAX_RESULTS` constant of the script. -/
def MAX_RESULTS : Nat := 1000

/-- `SLEEP_SECONDS` constant of the script. -/
def SLEEP_SECONDS : Float := 1.0

/-- `PROHIBITED_KEYWORDS` constant of the script. -/
def PROHIBITED_KEYWORDS : List String := ["org:"]

/-! ### Query builder -/

/-- Message of the `SystemExit` raised by `build_query` on a prohibited filter. -/
def ORG_FORBIDDEN_MSG : String :=
  "ERROR: El uso de filtros por organización (org:) está prohibido por los requisitos."

/-- `build_query()`: mandatory `country:GT`, optional quoted city (Python
truthiness: only a non-empty configured city is appended), then the
additional filters provided they contain no prohibited keyword
(checked case-insensitively on the lowered text); the result is stripped.
`raise SystemExit(msg)` is modelled as `Except.error msg`. -/
def build_query (city_filter : Option String) (additional_filters : String)
    (prohibited : List String) : Except String String :=
  let base0 := "country:GT"
  let base1 :=
    match city_filter with
    | some c => if c = "" then base0 else base0 ++ " city:\"" ++ c ++ "\""
    | none => base0
  if additional_filters = "" then
    Except.ok (pyStrip base1)
  else
    let low := pyLower additional_filters
    if prohibited.any (fun x => strContains x.data low.data) then
      Except.error ORG_FORBIDDEN_MSG
    else
      Except.ok (pyStrip (base1 ++ " " ++ additional_filters))

/-- The optional city fragment of the built query, for stating theorems. -/
def cityPart : Option String → String
  | some c => if c = "" then "" else " city:\"" ++ c ++ "\""
  | none => ""

/-! ### Data model: matches, responses, network -/

/-- One match record of the API response.  Only the fields consumed by the
deduplication key are explicit (`ip_str`, `ip`, `port`); `extra` stands for
the remaining, presentation-only fields of the loosely-typed record. -/
structure Match where
  ip_str : Option String
  ip : Option Int
  port : Option Int
  extra : String
deriving DecidableEq

/-- The deduplication identity key: (address as text, port as integer). -/
abbrev Key := String × Int

/-- Python `str(x)` on the address fallback `m.get("ip")`. -/
def ipFallback : Option Int → String
  | none => "None"
  | some n => toString n

/-- Python `m.get("ip_str") or m.get("ip")` then `str(...)`: the `or`
falls through on a missing or empty `ip_str`. -/
def ipText (m : Match) : String :=
  match m.ip_str with
  | some s => if s = "" then ipFallback m.ip else s
  | none => ipFallback m.ip

/-- `key = (str(ip), int(port) if port is not None else -1)`. -/
def keyOf (m : Match) : Key :=
  (ipText m, match m.port with | some p => p | none => -1)

/-- Facets object: facet name ↦ ranked list of (value, count) pairs. -/
abbrev Facets := List (String × List (String × Int))

/-- Decoded JSON body of a successful page: `total` (defaulting to 0 when the
field is absent, as `int(first.get("total", 0))` does), the match list
(defaulting to empty), and the optional facets object. -/
structure Response where
  total : Int
  matchList : List Match
  facets : Option Facets
deriving DecidableEq

/-- What the network returns for one GET: either an HTTP response
(status code, raw text, decoded JSON body) or an exception raised by the
`requests` library itself (connection error, timeout). -/
inductive NetResult (α : Type) where
  | response (status_code : Nat) (text : String) (body : α)
  | exception (msg : String)
deriving DecidableEq

/-- Outcome of a Python call in this script: a value, a `SystemExit`, or a
propagating library exception. -/
inductive PyResult (α : Type) where
  | ok (val : α)
  | sysExit (msg : String)
  | exn (msg : String)
deriving DecidableEq

/-! ### Page fetcher: `http_get_shodan` -/

/-- Uppercase hexadecimal digit, as produced by `urllib.parse.quote`. -/
def hexUpper (n : Nat) : Char :=
  if n < 10 then Char.ofNat (48 + n) else Char.ofNat (55 + n)

/-- `%XX` percent-encoding of one byte. -/
def percentByte (b : Nat) : String :=
  "%" ++ String.mk [hexUpper (b / 16), hexUpper (b % 16)]

/-- UTF-8 bytes of a code point, as Python encodes non-safe characters. -/
def utf8Bytes (n : Nat) : List Nat :=
  if n < 128 then [n]
  else if n < 2048 then [192 + n / 64, 128 + n % 64]
  else if n < 65536 then [224 + n / 4096, 128 + (n / 64) % 64, 128 + n % 64]
  else [240 + n / 262144, 128 + (n / 4096) % 64, 128 + (n / 64) % 64, 128 + n % 64]

/-- `urllib.parse.quote_plus` on one character: space becomes `+`, the
always-safe characters (ASCII alphanumerics and `_ . - ~`) pass through,
everything else is percent-encoded byte by byte. -/
def quote_plus_char (c : Char) : String :=
  if c == ' ' then "+"
  else if c.isAlphanum || c == '_' || c == '.' || c == '-' || c == '~' then
    String.mk [c]
  else
    String.join ((utf8Bytes c.toNat).map percentByte)

/-- `urllib.parse.quote_plus` on a string. -/
def quote_plus (s : String) : String :=
  String.join (s.data.map quote_plus_char)

/-- `urllib.parse.urlencode(params, quote_via=quote_plus)`. -/
def urlencode (params : List (String × String)) : String :=
  String.intercalate "&" (params.map fun kv => quote_plus kv.1 ++ "=" ++ quote_plus kv.2)

/-- Endpoint URL constant of the script. -/
def SHODAN_URL : String := "https://api.shodan.io/shodan/host/search"

/-- The `params` dictionary built by `http_get_shodan` (insertion order:
`key`, `query`, `page`, then `facets` only when non-empty). -/
def shodan_params (key query : String) (page : Nat) (facets : String) :
    List (String × String) :=
  [("key", key), ("query", query), ("page", toString page)] ++
    (if facets = "" then [] else [("facets", facets)])

/-- `full_url = f"{url}?{urlencode(params, quote_via=quote_plus)}"`. -/
def shodan_full_url (key query : String) (page : Nat) (facets : String) : String :=
  SHODAN_URL ++ "?" ++ urlencode (shodan_params key query page facets)

/-- Message of the `SystemExit` raised on a non-200 HTTP status. -/
def http_error_msg (status : Nat) (full_url body : String) : String :=
  "ERROR HTTP " ++ toString status ++ " al consultar Shodan.\nURL: " ++
    full_url ++ "\nCuerpo: " ++ body

/-- `http_get_shodan(query, page, facets)`: builds the URL, issues the single
GET (the first component lists the URLs requested — exactly one), raises
`SystemExit` with status, URL and body on a non-200 status, and otherwise
returns the decoded body unchecked. -/
def http_get_shodan (net : String → NetResult α) (key query : String)
    (page : Nat) (facets : String) : List String × PyResult α :=
  let full_url := shodan_full_url key query page facets
  ([full_url],
    match net full_url with
    | .exception msg => .exn msg
    | .response code text body =>
      if code ≠ 200 then .sysExit (http_error_msg code full_url text)
      else .ok body)

/-- The page fetcher `fetch_all` uses, when the abstract environment is the
real `http_get_shodan` over a network `net` with credential `key`. -/
def http_fetcher (net : String → NetResult Response) (key : String) :
    String → Nat → String → PyResult Response :=
  fun query page facets => (http_get_shodan net key query page facets).2

/-! ### Result accumulator: `fetch_all` -/

/-- Warning printed to stderr when a page after the first fails:
`f"ADVERTENCIA: No fue posible continuar en la página {page}: {exc}"`. -/
def warn_msg (page : Nat) (msg : String) : String :=
  "ADVERTENCIA: No fue posible continuar en la página " ++ toString page ++
    ": " ++ msg

/-- The inner `add_batch` of `fetch_all`: walk the batch, appending each match
whose key is unseen and counting the additions.  Returns (seen, matches,
added). -/
def add_batch (seen : List Key) (acc : List Match) (added : Nat) :
    List Match → List Key × List Match × Nat
  | [] => (seen, acc, added)
  | m :: rest =>
    let key := keyOf m
    if key ∈ seen then add_batch seen acc added rest
    else add_batch (key :: seen) (acc ++ [m]) (added + 1) rest

/-- Accumulated state when the pagination loop finishes normally.  `pages`,
`errLog` and `received` are ghost observations: pages requested after the
first, warnings written to stderr, and every match received in arrival
order. -/
structure LoopOut where
  matchList : List Match
  pages : List Nat
  errLog : List String
  received : List Match
deriving DecidableEq

/-- Outcome of the pagination loop: normal termination, or a propagating
`requests` exception (only `SystemExit` is caught by the loop's `except`). -/
inductive LoopResult where
  | ok (out : LoopOut)
  | exn (msg : String)
deriving DecidableEq

/-- The `while` loop of `fetch_all`.  `fuel` bounds the recursion depth; each
iteration that continues strictly grows `matches` while requiring
`matches.length < max_results`, so any fuel above `max_results` is never the
binding constraint (`fetchLoop_fuel_ge` below proves the independence), and
the definition agrees with the unbounded Python loop. -/
def fetchLoop (fp : String → Nat → String → PyResult Response) (query : String)
    (max_results : Nat) (total_reported : Int) :
    Nat → List Match → List Key → Nat → List Nat → List String → List Match →
    LoopResult
  | 0, ms, _, _, pages, errLog, received =>
    .ok ⟨ms, pages, errLog, received⟩
  | fuel + 1, ms, seen, page, pages, errLog, received =>
    if ms.length < max_results ∧ (ms.length : Int) < total_reported then
      match fp query (page + 1) "" with
      | .exn msg => .exn msg
      | .sysExit msg =>
        .ok ⟨ms, pages ++ [page + 1], errLog ++ [warn_msg (page + 1) msg],
          received⟩
      | .ok data =>
        if data.matchList.isEmpty then
          .ok ⟨ms, pages ++ [page + 1], errLog, received ++ data.matchList⟩
        else
          let r := add_batch seen ms 0 data.matchList
          if r.2.2 = 0 then
            .ok ⟨r.2.1, pages ++ [page + 1], errLog, received ++ data.matchList⟩
          else
            fetchLoop fp query max_results total_reported fuel r.2.1 r.1
              (page + 1) (pages ++ [page + 1]) errLog (received ++ data.matchList)
    else .ok ⟨ms, pages, errLog, received⟩

/-- Value returned by a successful `fetch_all` run, with the ghost
observations.  `matches` is the truncated return value
`matches[:max_results]`; `full` is the accumulated list before truncation. -/
structure FetchOk where
  matchList : List Match
  total_reported : Int
  facets_obj : Option Facets
  pages : List Nat
  errLog : List String
  received : List Match
  full : List Match
deriving DecidableEq

/-- A fatal end of the run: an uncaught `SystemExit` or library exception. -/
inductive RunError where
  | sysExit (msg : String)
  | exn (msg : String)
deriving DecidableEq

/-- Outcome of `fetch_all`. -/
inductive FetchResult where
  | ok (out : FetchOk)
  | fatal (e : RunError)
deriving DecidableEq

/-- `facets_obj` capture: `if first.get("facets"): facets_obj = first["facets"]`
(Python truthiness: an absent or empty facets object is dropped). -/
def facetsCapture : Option Facets → Option Facets
  | some f => if f.isEmpty then none else some f
  | none => none

/-- `fetch_all(query, facets, max_results, sleep_s)`: fetch page 1 with the
facet spec (failures propagate), record the reported total and facets, seed
the deduplicated list, run the pagination loop, and return the list truncated
to `max_results`. -/
def fetch_all (fp : String → Nat → String → PyResult Response)
    (query facets : String) (max_results : Nat) (sleep_s : Float) : FetchResult :=
  match fp query 1 facets with
  | .sysExit msg => .fatal (.sysExit msg)
  | .exn msg => .fatal (.exn msg)
  | .ok first =>
    let total_reported : Int := first.total
    let facets_obj := facetsCapture first.facets
    let r := add_batch [] [] 0 first.matchList
    match fetchLoop fp query max_results total_reported (max_results + 1)
        r.2.1 r.1 1 [1] [] first.matchList with
    | .exn msg => .fatal (.exn msg)
    | .ok out =>
      .ok ⟨out.matchList.take max_results, total_reported, facets_obj,
        out.pages, out.errLog, out.received, out.matchList⟩

/-! ### Orchestration: `main` -/

/-- The report blocks `main` prints, each carrying exactly the data passed to
the corresponding print helper (the table/summary layout is presentation
only). -/
inductive OutEvent where
  | banner (query : String)
  | totals (total_reported : Int) (downloaded : Nat)
  | facetsOut (facets_obj : Option Facets)
  | table (results : List Match)
  | summary (results : List Match)
deriving DecidableEq

/-- Observable outcome of a `main` run: stdout report blocks in order, stderr
warnings, the fatal error if one propagated, and the pages requested. -/
structure MainResult where
  stdout : List OutEvent
  stderr : List String
  exit : Option RunError
  pages : List Nat
deriving DecidableEq

/-- The module-level configuration constants of the script, gathered so that
runs over other constant choices can be stated. -/
structure Config where
  api_key : String
  city_filter : Option String
  additional_filters : String
  facets : String
  max_results : Nat
  sleep_seconds : Float
  prohibited : List String

/-- The configuration hard-coded in the script. -/
def defaultConfig : Config :=
  ⟨SHODAN_API_KEY, CITY_FILTER, ADDITIONAL_FILTERS, FACETS, MAX_RESULTS,
    SLEEP_SECONDS, PROHIBITED_KEYWORDS⟩

/-- `main()`: build the query (a `SystemExit` here ends the run before any
fetch), print the banner, fetch all pages (a propagating error ends the run
after the banner), then print totals, facets, the result table and the
summary. -/
def main (fp : String → Nat → String → PyResult Response) (cfg : Config) :
    MainResult :=
  match build_query cfg.city_filter cfg.additional_filters cfg.prohibited with
  | .error msg => ⟨[], [], some (.sysExit msg), []⟩
  | .ok final_query =>
    match fetch_all fp final_query cfg.facets cfg.max_results cfg.sleep_seconds with
    | .fatal e => ⟨[.banner final_query], [], some e, []⟩
    | .ok r =>
      ⟨[.banner final_query, .totals r.total_reported r.matchList.length,
          .facetsOut r.facets_obj, .table r.matchList, .summary r.matchList],
        r.errLog, none, r.pages⟩

/-- First-seen-order accumulation of keys, mirroring how `fetch_all` extends
`matches`: fold over the stream, appending each key not seen before. -/
def firstSeen (acc : List Key) (l : List Key) : List Key :=
  l.foldl (fun a k => if k ∈ a then a else a ++ [k]) acc

/-! ### Concrete data for witness runs -/

/-- Executable test that a string has no leading and no trailing whitespace. -/
def noEdgeWs (s : String) : Bool :=
  s.data.head?.all (fun c => !isPyWs c) && s.data.getLast?.all (fun c => !isPyWs c)

/-- A page fetcher that must never be reached. -/
def fpDead : String → Nat → String → PyResult Response :=
  fun _ _ _ => .sysExit "unreachable"

/-- The script's configuration with a prohibited additional filter. -/
def cfgOrg : Config :=
  { defaultConfig with additional_filters := "ORG:google" }

/-- A network that always answers with HTTP 404. -/
def net404 : String → NetResult Response :=
  fun _ => .response 404 "Not found" ⟨0, [], none⟩

/-- Sample match records with pairwise distinct identity keys. -/
def mA : Match := ⟨some "10.0.0.1", none, some 80, ""⟩

def mB : Match := ⟨some "10.0.0.2", none, some 80, ""⟩

def mC : Match := ⟨some "10.0.0.3", none, some 443, ""⟩

def mD : Match := ⟨some "10.0.0.4", none, some 22, ""⟩

def mE : Match := ⟨some "10.0.0.5", none, some 21, ""⟩

/-- A later sighting carrying the same identity key as `mA`. -/
def mAdup : Match := ⟨some "10.0.0.1", none, some 80, "later sighting"⟩

/-- Page 1 for the duplicate-page scenario: two unique keys among three rows. -/
def respC1p1 : Response := ⟨10, [mA, mB, mAdup], none⟩

/-- Page 2 for the duplicate-page scenario: only already-seen keys. -/
def respC1p2 : Response := ⟨10, [mAdup, mB], none⟩

/-- Fetcher serving the duplicate-page scenario. -/
def envC1 : String → Nat → String → PyResult Response :=
  fun _ page _ =>
    match page with
    | 1 => .ok respC1p1
    | 2 => .ok respC1p2
    | _ => .sysExit "unexpected page"

/-- Fetcher for the truncation scenario: 5 reported, pages of 2 new each. -/
def envC4 : String → Nat → String → PyResult Response :=
  fun _ page _ =>
    match page with
    | 1 => .ok ⟨5, [mA, mB], none⟩
    | 2 => .ok ⟨5, [mC, mD], none⟩
    | _ => .ok ⟨5, [mE], none⟩

/-- Expected accumulator output in the truncation scenario. -/
def outC4 : FetchOk :=
  ⟨[mA, mB, mC], 5, none, [1, 2], [], [mA, mB, mC, mD], [mA, mB, mC, mD]⟩

/-- First page reporting a total of zero with no matches. -/
def respC5 : Response := ⟨0, [], none⟩

/-- Fetcher serving the empty-first-page scenario. -/
def envC5 : String → Nat → String → PyResult Response :=
  fun _ page _ =>
    match page with
    | 1 => .ok respC5
    | _ => .sysExit "no further page"

/-- A first page with two unique matches and ten reported in total. -/
def respAB : Response := ⟨10, [mA, mB], none⟩

/-- A second page with two further unique matches. -/
def respCD : Response := ⟨10, [mC, mD], none⟩

/-- Fetcher whose third and later pages fail with an HTTP error. -/
def envC6 : String → Nat → String → PyResult Response :=
  fun _ page _ =>
    match page with
    | 1 => .ok respAB
    | 2 => .ok respCD
    | _ => .sysExit "ERROR HTTP 500 al consultar Shodan."

/-- Expected accumulator output when page 3 fails with an HTTP error after
two successful pages. -/
def outC6 : FetchOk :=
  ⟨[mA, mB, mC, mD], 10, none, [1, 2, 3],
    [warn_msg 3 "ERROR HTTP 500 al consultar Shodan."],
    [mA, mB, mC, mD], [mA, mB, mC, mD]⟩

/-- Fetcher that fails with an HTTP error on every page. -/
def envFail : String → Nat → String → PyResult Response :=
  fun _ _ _ => .sysExit "ERROR HTTP 503 al consultar Shodan."

/-- Fetcher that raises a connection error on every page. -/
def envConnErr : String → Nat → String → PyResult Response :=
  fun _ _ _ => .exn "ConnectionError"

/-- Fetcher whose third and later pages raise a `requests` timeout. -/
def envC10 : String → Nat → String → PyResult Response :=
  fun _ page _ =>
    match page with
    | 1 => .ok respAB
    | 2 => .ok respCD
    | _ => .exn "ReadTimeout"

/-- Fetcher for the deduplication-invariant witness. -/
def envC9 : String → Nat → String → PyResult Response :=
  fun _ page _ =>
    match page with
    | 1 => .ok ⟨2, [mA, mAdup, mB], none⟩
    | _ => .sysExit "stop"

/-- Expected accumulator output for the deduplication-invariant witness. -/
def outC9 : FetchOk :=
  ⟨[mA, mB], 2, none, [1], [], [mA, mAdup, mB], [mA, mB]⟩

end Shodan

namespace Shodan

/-! ### Supporting lemmas: strings and stripping -/

theorem string_eq_of_data {s t : String} (h : s.data = t.data) : s = t := by
  cases s
  cases t
  exact congrArg String.mk h

theorem dropWhile_eq_self_of_head (p : Char → Bool) (l : List Char)
    (h : ∀ c, l.head? = some c → p c = false) : l.dropWhile p = l := by
  cases l with
  | nil => rfl
  | cons a t =>
    have ha := h a rfl
    simp [List.dropWhile_cons, ha]

theorem pyStripList_eq_self (l : List Char)
    (hh : ∀ c, l.head? = some c → isPyWs c = false)
    (hl : ∀ c, l.getLast? = some c → isPyWs c = false) : pyStripList l = l := by
  unfold pyStripList
  rw [dropWhile_eq_self_of_head isPyWs l hh]
  rw [dropWhile_eq_self_of_head isPyWs l.reverse]
  · exact l.reverse_reverse
  · intro c hc
    rw [List.head?_reverse] at hc
    exact hl c hc

theorem pyStrip_eq_self (s : String)
    (hh : ∀ c, s.data.head? = some c → isPyWs c = false)
    (hl : ∀ c, s.data.getLast? = some c → isPyWs c = false) : pyStrip s = s := by
  apply string_eq_of_data
  show pyStripList s.data = s.data
  exact pyStripList_eq_self s.data hh hl

theorem cityPart_getLast (city : Option String) :
    ∀ c, (cityPart city).data.getLast? = some c → isPyWs c = false := by
  cases city with
  | none => intro c hc; simp [cityPart] at hc
  | some v =>
    by_cases hv : v = ""
    · subst hv; intro c hc; simp [cityPart] at hc
    · intro c hc
      simp only [cityPart, if_neg hv] at hc
      rw [String.append_assoc, String.data_append,
        List.getLast?_append_of_ne_nil _ (by simp [String.data_append])] at hc
      rw [String.data_append, List.getLast?_append_of_ne_nil _ (by decide)] at hc
      have : c = '\"' := by
        have : (("\"" : String)).data.getLast? = some '\"' := by decide
        rw [this] at hc
        exact (Option.some.inj hc).symm
      subst this
      decide

theorem country_head (t : String) :
    ∀ c, (("country:GT" ++ t)).data.head? = some c → isPyWs c = false := by
  intro c hc
  rw [String.data_append] at hc
  have hcc : c = 'c' := by
    have h2 : ("country:GT" : String).data = 'c' :: "ountry:GT".data := by decide
    rw [h2] at hc
    simp at hc
    exact hc.symm
  subst hcc
  decide

end Shodan

namespace Shodan

theorem noEdgeWs_head {s : String} (h : noEdgeWs s = true) :
    ∀ c, s.data.head? = some c → isPyWs c = false := by
  intro c hc
  unfold noEdgeWs at h
  rw [hc] at h
  simp [Option.all] at h
  simp [h]

theorem noEdgeWs_last {s : String} (h : noEdgeWs s = true) :
    ∀ c, s.data.getLast? = some c → isPyWs c = false := by
  intro c hc
  unfold noEdgeWs at h
  rw [hc] at h
  simp [Option.all] at h
  simp [h]

theorem head_country (t : List Char) (c : Char)
    (hc : (("country:GT" : String).data ++ t).head? = some c) : isPyWs c = false := by
  have h2 : ("country:GT" : String).data = 'c' :: "ountry:GT".data := by decide
  rw [h2, List.cons_append, List.head?_cons] at hc
  cases hc
  decide

theorem base1_eq (city : Option String) :
    (match city with
     | some c => if c = "" then "country:GT"
                 else "country:GT" ++ " city:\"" ++ c ++ "\""
     | none => "country:GT") = "country:GT" ++ cityPart city := by
  cases city with
  | none => exact (String.append_empty _).symm
  | some c =>
    by_cases hc : c = ""
    · subst hc
      simp only [cityPart, if_pos rfl]
      exact (String.append_empty _).symm
    · simp only [cityPart, if_neg hc]
      simp only [String.append_assoc]

theorem country_city_last (city : Option String) :
    ∀ c, (("country:GT" ++ cityPart city)).data.getLast? = some c → isPyWs c = false := by
  intro c hc
  rw [String.data_append] at hc
  by_cases hnil : (cityPart city).data = []
  · rw [hnil, List.append_nil] at hc
    have hT : ("country:GT" : String).data.getLast? = some 'T' := by decide
    rw [hT] at hc
    have := Option.some.inj hc
    subst this
    decide
  · rw [List.getLast?_append_of_ne_nil _ hnil] at hc
    exact cityPart_getLast city c hc

theorem data_ne_nil_of_ne_empty {s : String} (h : s ≠ "") : s.data ≠ [] := by
  intro hd
  exact h (string_eq_of_data (by rw [hd]))

end Shodan

namespace Shodan

/-- Closed-form characterization of `build_query`. -/
theorem build_query_eq (city : Option String) (s : String) (pro : List String) :
    build_query city s pro =
      if s = "" then .ok (pyStrip ("country:GT" ++ cityPart city))
      else if pro.any (fun x => strContains x.data (pyLower s).data) then
        .error ORG_FORBIDDEN_MSG
      else .ok (pyStrip ("country:GT" ++ cityPart city ++ " " ++ s)) := by
  simp only [build_query]
  rw [base1_eq]

theorem country_city_head (city : Option String) :
    ∀ c, (("country:GT" ++ cityPart city)).data.head? = some c → isPyWs c = false := by
  intro c hc
  rw [String.data_append] at hc
  exact head_country _ c hc

end Shodan

namespace Shodan

/-- Claim C3 (amended): for every additional-filter string with no leading or
trailing whitespace that is free of prohibited terms, the built query is the
mandatory `country:GT`, then the quoted city constraint exactly when a
non-empty locality is configured, then (when non-empty) a single space and
the additional filter text verbatim; with no locality and an empty
additional filter it is exactly `country:GT`.  (The original claim, without
the no-edge-whitespace restriction, fails: the final `strip()` removes
trailing whitespace of the filter text, see `build_query_verbatim_cex`.) -/
theorem build_query_shape (city : Option String) (s : String)
    (hedge : noEdgeWs s = true)
    (hforb : strContains "org:".data (pyLower s).data = false) :
    build_query city s PROHIBITED_KEYWORDS =
      .ok ("country:GT" ++ cityPart city ++ (if s = "" then "" else " " ++ s)) := by
  have hanyf : (PROHIBITED_KEYWORDS.any fun x => strContains x.data (pyLower s).data)
      = false := by
    simp only [PROHIBITED_KEYWORDS, List.any_cons, List.any_nil, Bool.or_false]
    exact hforb
  rw [build_query_eq]
  by_cases hs : s = ""
  · subst hs
    rw [if_pos rfl, if_pos rfl, String.append_empty]
    rw [pyStrip_eq_self _ (country_city_head city) (country_city_last city)]
  · rw [if_neg hs, if_neg hs, hanyf, if_neg (by simp)]
    have hstrip : pyStrip ("country:GT" ++ cityPart city ++ " " ++ s) =
        "country:GT" ++ cityPart city ++ " " ++ s := by
      apply pyStrip_eq_self
      · intro c hc
        simp only [String.data_append, List.append_assoc] at hc
        exact head_country _ c hc
      · intro c hc
        rw [String.data_append,
          List.getLast?_append_of_ne_nil _ (data_ne_nil_of_ne_empty hs)] at hc
        exact noEdgeWs_last hedge c hc
    rw [hstrip, String.append_assoc]

/-- Witness for `build_query_shape` at a concrete city and filter. -/
theorem build_query_shape_witness :
    build_query (some "Guatemala") "port:80" PROHIBITED_KEYWORDS =
      .ok ("country:GT" ++ cityPart (some "Guatemala") ++
        (if ("port:80" : String) = "" then "" else " " ++ "port:80")) :=
  build_query_shape (some "Guatemala") "port:80" (by decide) (by decide)

/-- Counterexample to claim C3 as stated: for the prohibited-free additional
filter `"port:80 "` (trailing space) the built query is
`"country:GT port:80"`, so the additional filter text does not appear
verbatim after the single joining space — the trailing whitespace was
stripped. -/
theorem build_query_verbatim_cex :
    build_query none "port:80 " PROHIBITED_KEYWORDS = .ok "country:GT port:80" ∧
    (Except.ok "country:GT port:80" : Except String String) ≠
      .ok ("country:GT" ++ " " ++ "port:80 ") := by
  constructor
  · rfl
  · intro h
    exact absurd (Except.ok.inj h) (by decide)

end Shodan

namespace Shodan

/-- Claim C2: whenever the additional-filter text contains the prohibited
organization-filter keyword `org:` at any position and in any letter case
(i.e. its lowered form contains `"org:"`, exactly the test the script
performs), the whole run ends with the `SystemExit` of `build_query`: nothing
is printed, no warning is produced and — decisively — no page is ever
requested (the request trace is empty and the outcome does not depend on the
network environment `fp` at all). -/
theorem prohibited_filter_blocks_run (fp : String → Nat → String → PyResult Response)
    (cfg : Config) (hpro : cfg.prohibited = PROHIBITED_KEYWORDS)
    (h : strContains "org:".data (pyLower cfg.additional_filters).data = true) :
    main fp cfg = ⟨[], [], some (.sysExit ORG_FORBIDDEN_MSG), []⟩ := by
  have hne : cfg.additional_filters ≠ "" := by
    intro he
    rw [he] at h
    exact absurd h (by decide)
  have hbq : build_query cfg.city_filter cfg.additional_filters cfg.prohibited =
      .error ORG_FORBIDDEN_MSG := by
    rw [build_query_eq, if_neg hne, hpro]
    have hany : (PROHIBITED_KEYWORDS.any fun x =>
        strContains x.data (pyLower cfg.additional_filters).data) = true := by
      simp only [PROHIBITED_KEYWORDS, List.any_cons, List.any_nil, Bool.or_false]
      exact h
    rw [hany, if_pos rfl]
  unfold main
  rw [hbq]

/-- Witness for `prohibited_filter_blocks_run`: an upper-case `ORG:` filter
blocks the run under a fetcher that would fail if ever consulted. -/
theorem prohibited_filter_blocks_run_witness :
    main fpDead cfgOrg = ⟨[], [], some (.sysExit ORG_FORBIDDEN_MSG), []⟩ :=
  prohibited_filter_blocks_run fpDead cfgOrg rfl (by decide)

end Shodan

namespace Shodan

/-- Claim C8: every page fetch requests exactly the one constructed URL; a
non-200 status raises `SystemExit` with a message that contains the numeric
status code, the full constructed URL and the response body; a 200 status
returns the decoded body as-is, with no shape validation. -/
theorem http_get_status_dispatch {α : Type} (net : String → NetResult α)
    (key query : String) (page : Nat) (facets : String) :
    (http_get_shodan net key query page facets).1 =
      [shodan_full_url key query page facets] ∧
    (∀ code text body,
      net (shodan_full_url key query page facets) = .response code text body →
      code ≠ 200 →
      (http_get_shodan net key query page facets).2 =
        .sysExit (http_error_msg code (shodan_full_url key query page facets) text) ∧
      (toString code).data <:+:
        (http_error_msg code (shodan_full_url key query page facets) text).data ∧
      (shodan_full_url key query page facets).data <:+:
        (http_error_msg code (shodan_full_url key query page facets) text).data ∧
      text.data <:+:
        (http_error_msg code (shodan_full_url key query page facets) text).data) ∧
    (∀ code text body,
      net (shodan_full_url key query page facets) = .response code text body →
      code = 200 →
      (http_get_shodan net key query page facets).2 = .ok body) := by
  refine ⟨rfl, ?_, ?_⟩
  · intro code text body hnet hcode
    refine ⟨?_, ?_, ?_, ?_⟩
    · simp only [http_get_shodan, hnet]
      rw [if_pos hcode]
    · refine ⟨"ERROR HTTP ".data,
        (" al consultar Shodan.\nURL: ").data ++
          (shodan_full_url key query page facets).data ++
          ("\nCuerpo: ").data ++ text.data, ?_⟩
      simp [http_error_msg, String.data_append, List.append_assoc]
    · refine ⟨"ERROR HTTP ".data ++ (toString code).data ++
        (" al consultar Shodan.\nURL: ").data,
        ("\nCuerpo: ").data ++ text.data, ?_⟩
      simp [http_error_msg, String.data_append, List.append_assoc]
    · refine ⟨"ERROR HTTP ".data ++ (toString code).data ++
        (" al consultar Shodan.\nURL: ").data ++
        (shodan_full_url key query page facets).data ++ ("\nCuerpo: ").data,
        [], ?_⟩
      simp [http_error_msg, String.data_append, List.append_assoc]
  · intro code text body hnet hcode
    simp only [http_get_shodan, hnet]
    rw [if_neg (by simp [hcode])]

/-- Witness for `http_get_status_dispatch` on a 404 network. -/
theorem http_get_status_dispatch_witness :
    (http_get_shodan net404 "k" "country:GT" 1 "").1 =
      [shodan_full_url "k" "country:GT" 1 ""] ∧
    (http_get_shodan net404 "k" "country:GT" 1 "").2 =
      .sysExit (http_error_msg 404 (shodan_full_url "k" "country:GT" 1 "") "Not found") ∧
    (toString 404).data <:+:
      (http_error_msg 404 (shodan_full_url "k" "country:GT" 1 "") "Not found").data ∧
    (shodan_full_url "k" "country:GT" 1 "").data <:+:
      (http_error_msg 404 (shodan_full_url "k" "country:GT" 1 "") "Not found").data := by
  have h := http_get_status_dispatch net404 "k" "country:GT" 1 ""
  have h2 := h.2.1 404 "Not found" ⟨0, [], none⟩ rfl (by decide)
  exact ⟨h.1, h2.1, h2.2.1, h2.2.2.1⟩

end Shodan

namespace Shodan

theorem add_batch_length (batch : List Match) :
    ∀ (seen : List Key) (acc : List Match) (added : Nat),
      (add_batch seen acc added batch).2.1.length + added =
        acc.length + (add_batch seen acc added batch).2.2 := by
  induction batch with
  | nil => intro seen acc added; simp [add_batch]
  | cons m rest ih =>
    intro seen acc added
    simp only [add_batch]
    split
    · exact ih seen acc added
    · have h := ih (keyOf m :: seen) (acc ++ [m]) (added + 1)
      simp only [List.length_append, List.length_cons, List.length_nil] at h
      omega

theorem add_batch_alldup (batch : List Match) :
    ∀ (seen : List Key) (acc : List Match) (added : Nat),
      (∀ m ∈ batch, keyOf m ∈ seen) →
      add_batch seen acc added batch = (seen, acc, added) := by
  induction batch with
  | nil => intro seen acc added _; rfl
  | cons m rest ih =>
    intro seen acc added h
    have hm : keyOf m ∈ seen := h m (List.mem_cons_self m rest)
    simp only [add_batch, if_pos hm]
    exact ih seen acc added (fun x hx => h x (List.mem_cons_of_mem m hx))

theorem add_batch_mem_seen (batch : List Match) :
    ∀ (seen : List Key) (acc : List Match) (added : Nat) (k : Key),
      k ∈ (add_batch seen acc added batch).1 ↔
        k ∈ seen ∨ k ∈ batch.map keyOf := by
  induction batch with
  | nil => intro seen acc added k; simp [add_batch]
  | cons m rest ih =>
    intro seen acc added k
    simp only [add_batch]
    split
    · rename_i hm
      rw [ih seen acc added k]
      simp only [List.map_cons, List.mem_cons]
      constructor
      · rintro (h | h)
        · exact Or.inl h
        · exact Or.inr (Or.inr h)
      · rintro (h | h | h)
        · exact Or.inl h
        · exact Or.inl (h ▸ hm)
        · exact Or.inr h
    · rw [ih (keyOf m :: seen) (acc ++ [m]) (added + 1) k]
      simp only [List.mem_cons, List.map_cons]
      tauto

theorem firstSeen_nil (a : List Key) : firstSeen a [] = a := rfl

theorem firstSeen_cons (a : List Key) (k : Key) (l : List Key) :
    firstSeen a (k :: l) = firstSeen (if k ∈ a then a else a ++ [k]) l := rfl

theorem firstSeen_append (a : List Key) (l1 l2 : List Key) :
    firstSeen a (l1 ++ l2) = firstSeen (firstSeen a l1) l2 :=
  List.foldl_append _ a l1 l2

theorem firstSeen_nodup (l : List Key) :
    ∀ a : List Key, a.Nodup → (firstSeen a l).Nodup := by
  induction l with
  | nil => intro a ha; exact ha
  | cons k rest ih =>
    intro a ha
    rw [firstSeen_cons]
    by_cases hk : k ∈ a
    · rw [if_pos hk]; exact ih a ha
    · rw [if_neg hk]
      refine ih (a ++ [k]) ?_
      simp [List.nodup_append, ha, hk]

theorem firstSeen_mem (l : List Key) :
    ∀ (a : List Key) (k : Key), k ∈ firstSeen a l ↔ k ∈ a ∨ k ∈ l := by
  induction l with
  | nil => intro a k; simp [firstSeen_nil]
  | cons x rest ih =>
    intro a k
    rw [firstSeen_cons]
    by_cases hx : x ∈ a
    · rw [if_pos hx, ih a k]
      simp only [List.mem_cons]
      constructor
      · rintro (h | h)
        · exact Or.inl h
        · exact Or.inr (Or.inr h)
      · rintro (h | h | h)
        · exact Or.inl h
        · exact Or.inl (h ▸ hx)
        · exact Or.inr h
    · rw [if_neg hx, ih (a ++ [x]) k]
      simp only [List.mem_append, List.mem_singleton, List.mem_cons]
      tauto

end Shodan

namespace Shodan

theorem add_batch_spec (batch : List Match) :
    ∀ (seen : List Key) (acc : List Match) (added : Nat),
      (∀ k, k ∈ seen ↔ k ∈ acc.map keyOf) →
      (add_batch seen acc added batch).2.1.map keyOf =
          firstSeen (acc.map keyOf) (batch.map keyOf) ∧
        (∀ k, k ∈ (add_batch seen acc added batch).1 ↔
          k ∈ (add_batch seen acc added batch).2.1.map keyOf) := by
  induction batch with
  | nil =>
    intro seen acc added hinv
    exact ⟨rfl, hinv⟩
  | cons m rest ih =>
    intro seen acc added hinv
    simp only [add_batch, List.map_cons, firstSeen_cons]
    by_cases hm : keyOf m ∈ seen
    · rw [if_pos hm]
      have hma : keyOf m ∈ acc.map keyOf := (hinv (keyOf m)).mp hm
      rw [if_pos hma]
      exact ih seen acc added hinv
    · rw [if_neg hm]
      have hma : keyOf m ∉ acc.map keyOf := fun h => hm ((hinv (keyOf m)).mpr h)
      rw [if_neg hma]
      have hinv2 : ∀ k, k ∈ keyOf m :: seen ↔ k ∈ (acc ++ [m]).map keyOf := by
        intro k
        simp only [List.mem_cons, List.map_append, List.map_cons, List.map_nil,
          List.mem_append, List.mem_singleton, hinv k]
        tauto
      have h := ih (keyOf m :: seen) (acc ++ [m]) (added + 1) hinv2
      rw [List.map_append, List.map_cons, List.map_nil] at h
      exact h

theorem firstSeen_length_dedup (l : List Key) :
    (firstSeen [] l).length = l.dedup.length := by
  have h1 : (firstSeen [] l).Nodup := firstSeen_nodup l [] List.nodup_nil
  rw [← List.toFinset_card_of_nodup h1, ← List.toFinset_card_of_nodup (List.nodup_dedup l)]
  congr 1
  ext k
  simp only [List.mem_toFinset, List.mem_dedup, firstSeen_mem, List.not_mem_nil,
    false_or]

end Shodan

namespace Shodan

/-- The loop result does not depend on the fuel once the fuel exceeds
`max_results - matches.length`: every continuing iteration strictly grows the
accumulated list while requiring its length below `max_results`.  Hence the
fuel `max_results + 1` used by `fetch_all` reproduces the unbounded Python
loop. -/
theorem fetchLoop_fuel_ge (fp : String → Nat → String → PyResult Response)
    (q : String) (maxR : Nat) (tot : Int) :
    ∀ (f1 f2 : Nat) (ms : List Match) (seen : List Key) (page : Nat)
      (pages : List Nat) (errLog : List String) (received : List Match),
      maxR - ms.length < f1 → maxR - ms.length < f2 →
      fetchLoop fp q maxR tot f1 ms seen page pages errLog received =
        fetchLoop fp q maxR tot f2 ms seen page pages errLog received := by
  intro f1
  induction f1 with
  | zero =>
    intro f2 ms seen page pages errLog received h1 h2
    omega
  | succ n ih =>
    intro f2 ms seen page pages errLog received h1 h2
    cases f2 with
    | zero => omega
    | succ m =>
      simp only [fetchLoop]
      by_cases hc : ms.length < maxR ∧ (ms.length : Int) < tot
      · rw [if_pos hc, if_pos hc]
        split
        · rfl
        · rfl
        · rename_i data hfp
          by_cases hbe : data.matchList.isEmpty
          · rw [if_pos hbe, if_pos hbe]
          · rw [if_neg hbe, if_neg hbe]
            by_cases hadd : (add_batch seen ms 0 data.matchList).2.2 = 0
            · rw [if_pos hadd, if_pos hadd]
            · rw [if_neg hadd, if_neg hadd]
              have hlen := add_batch_length data.matchList seen ms 0
              apply ih
              · omega
              · omega
      · rw [if_neg hc, if_neg hc]

end Shodan

namespace Shodan

/-- Invariant of the pagination loop: when it finishes normally, the keys of
the accumulated list are exactly the first-seen-order accumulation of the
keys of every match received so far. -/
theorem fetchLoop_keys (fp : String → Nat → String → PyResult Response)
    (q : String) (maxR : Nat) (tot : Int) :
    ∀ (fuel : Nat) (ms : List Match) (seen : List Key) (page : Nat)
      (pages : List Nat) (errLog : List String) (received : List Match)
      (out : LoopOut),
      (∀ k, k ∈ seen ↔ k ∈ ms.map keyOf) →
      ms.map keyOf = firstSeen [] (received.map keyOf) →
      fetchLoop fp q maxR tot fuel ms seen page pages errLog received = .ok out →
      out.matchList.map keyOf = firstSeen [] (out.received.map keyOf) := by
  intro fuel
  induction fuel with
  | zero =>
    intro ms seen page pages errLog received out hinv hkeys hrun
    simp only [fetchLoop] at hrun
    cases hrun
    exact hkeys
  | succ n ih =>
    intro ms seen page pages errLog received out hinv hkeys hrun
    simp only [fetchLoop] at hrun
    by_cases hc : ms.length < maxR ∧ (ms.length : Int) < tot
    · rw [if_pos hc] at hrun
      split at hrun
      · cases hrun
      · cases hrun
        exact hkeys
      · rename_i data hfp
        by_cases hbe : data.matchList.isEmpty
        · rw [if_pos hbe] at hrun
          cases hrun
          have hnil : data.matchList = [] := List.isEmpty_iff.mp hbe
          simp only [hnil, List.append_nil]
          exact hkeys
        · rw [if_neg hbe] at hrun
          have hspec := add_batch_spec data.matchList seen ms 0 hinv
          by_cases hadd : (add_batch seen ms 0 data.matchList).2.2 = 0
          · rw [if_pos hadd] at hrun
            cases hrun
            simp only
            rw [hspec.1, hkeys, List.map_append, firstSeen_append]
          · rw [if_neg hadd] at hrun
            refine ih _ _ _ _ _ _ _ hspec.2 ?_ hrun
            rw [hspec.1, hkeys, List.map_append, firstSeen_append]
    · rw [if_neg hc] at hrun
      cases hrun
      exact hkeys

end Shodan

namespace Shodan

/-- Claim C9: whenever `fetch_all` returns normally, the accumulated list
(`full`, the list before truncation) holds at most one match per identity
key — its key list is duplicate-free — and lists keys exactly in the order
they were first seen across the received match stream; the returned list is
its truncation to the requested maximum. -/
theorem dedup_invariant (fp : String → Nat → String → PyResult Response)
    (q facets : String) (maxR : Nat) (sleep : Float) (out : FetchOk)
    (h : fetch_all fp q facets maxR sleep = .ok out) :
    (out.full.map keyOf).Nodup ∧
    out.full.map keyOf = firstSeen [] (out.received.map keyOf) ∧
    out.matchList = out.full.take maxR := by
  simp only [fetch_all] at h
  split at h
  · cases h
  · cases h
  · rename_i first hfp
    split at h
    · cases h
    · rename_i out0 hloop
      cases h
      have hinit : ∀ k, k ∈ ([] : List Key) ↔ k ∈ (([] : List Match)).map keyOf := by
        simp
      have hspec := add_batch_spec first.matchList [] [] 0 hinit
      have hkeys := fetchLoop_keys fp q maxR first.total (maxR + 1)
        (add_batch [] [] 0 first.matchList).2.1 (add_batch [] [] 0 first.matchList).1
        1 [1] [] first.matchList out0 hspec.2 hspec.1 hloop
      refine ⟨?_, hkeys, rfl⟩
      show (out0.matchList.map keyOf).Nodup
      rw [hkeys]
      exact firstSeen_nodup (out0.received.map keyOf) [] List.nodup_nil

/-- Witness for `dedup_invariant` on a three-row first page holding a
duplicate key. -/
theorem dedup_invariant_witness :
    (outC9.full.map keyOf).Nodup ∧
    outC9.full.map keyOf = firstSeen [] (outC9.received.map keyOf) ∧
    outC9.matchList = outC9.full.take 5 :=
  dedup_invariant envC9 "country:GT" "" 5 1.0 outC9 rfl

end Shodan

namespace Shodan

/-- Claim C5: when the first page reports a total of zero and carries no
matches, `fetch_all` returns an empty result set and the pagination loop body
never runs — the request trace is exactly `[1]`. -/
theorem empty_first_page (fp : String → Nat → String → PyResult Response)
    (q facets : String) (maxR : Nat) (sleep : Float) (fc : Option Facets)
    (h1 : fp q 1 facets = .ok ⟨0, [], fc⟩) :
    fetch_all fp q facets maxR sleep = .ok ⟨[], 0, facetsCapture fc, [1], [], [], []⟩ := by
  simp only [fetch_all, h1, add_batch, fetchLoop]
  rw [if_neg (by simp)]
  simp

end Shodan

namespace Shodan

/-- Claim C1: when page 2 only repeats (address, port) pairs already seen on
page 1 (and the loop is entered at all, i.e. page 1's unique count is below
both the maximum and the reported total), the accumulator returns exactly the
deduplicated page-1 list — as many entries as page 1 has unique pairs — and
the request trace is exactly `[1, 2]`: page 3 is never requested. -/
theorem dedup_two_pages (fp : String → Nat → String → PyResult Response)
    (q facets : String) (maxR : Nat) (sleep : Float) (p1 p2 : Response)
    (h1 : fp q 1 facets = .ok p1)
    (h2 : fp q 2 "" = .ok p2)
    (hdup : ∀ m ∈ p2.matchList, keyOf m ∈ p1.matchList.map keyOf)
    (hmax : (add_batch [] [] 0 p1.matchList).2.1.length < maxR)
    (htot : ((add_batch [] [] 0 p1.matchList).2.1.length : Int) < p1.total) :
    fetch_all fp q facets maxR sleep =
      .ok ⟨(add_batch [] [] 0 p1.matchList).2.1, p1.total, facetsCapture p1.facets,
        [1, 2], [], p1.matchList ++ p2.matchList,
        (add_batch [] [] 0 p1.matchList).2.1⟩ ∧
    (add_batch [] [] 0 p1.matchList).2.1.length =
      (p1.matchList.map keyOf).dedup.length := by
  constructor
  · have hdup2 : ∀ m ∈ p2.matchList, keyOf m ∈ (add_batch [] [] 0 p1.matchList).1 := by
      intro m hm
      rw [add_batch_mem_seen p1.matchList [] [] 0 (keyOf m)]
      exact Or.inr (hdup m hm)
    have hall := add_batch_alldup p2.matchList (add_batch [] [] 0 p1.matchList).1
      (add_batch [] [] 0 p1.matchList).2.1 0 hdup2
    simp only [fetch_all, h1, fetchLoop]
    rw [if_pos ⟨hmax, htot⟩]
    have h2' : fp q (1 + 1) "" = .ok p2 := h2
    simp only [h2']
    by_cases hbe : p2.matchList.isEmpty = true
    · simp [hbe, List.take_of_length_le (le_of_lt hmax)]
    · rw [if_neg hbe, hall]
      simp [List.take_of_length_le (le_of_lt hmax)]
  · have hinit : ∀ k, k ∈ ([] : List Key) ↔ k ∈ (([] : List Match)).map keyOf := by
      simp
    have hspec := add_batch_spec p1.matchList [] [] 0 hinit
    have hlen : (add_batch [] [] 0 p1.matchList).2.1.length =
        ((add_batch [] [] 0 p1.matchList).2.1.map keyOf).length :=
      (List.length_map _ _).symm
    rw [hlen, hspec.1]
    exact firstSeen_length_dedup (p1.matchList.map keyOf)

/-- Witness for `dedup_two_pages`: page 1 holds two unique pairs among three
rows, page 2 repeats only already-seen pairs. -/
theorem dedup_two_pages_witness :
    fetch_all envC1 "country:GT" "" 5 1.0 =
      .ok ⟨(add_batch [] [] 0 respC1p1.matchList).2.1, respC1p1.total,
        facetsCapture respC1p1.facets, [1, 2], [],
        respC1p1.matchList ++ respC1p2.matchList,
        (add_batch [] [] 0 respC1p1.matchList).2.1⟩ ∧
    (add_batch [] [] 0 respC1p1.matchList).2.1.length =
      (respC1p1.matchList.map keyOf).dedup.length :=
  dedup_two_pages envC1 "country:GT" "" 5 1.0 respC1p1 respC1p2 rfl rfl
    (by decide) (by decide) (by decide)

/-- Witness for `empty_first_page` on a concrete fetcher. -/
theorem empty_first_page_witness :
    fetch_all envC5 "country:GT" "" 1000 1.0 =
      .ok ⟨[], 0, facetsCapture none, [1], [], [], []⟩ :=
  empty_first_page envC5 "country:GT" "" 1000 1.0 none rfl

/-- Claim C4: with a reported total of 5 and a configured maximum of 3, pages
each contributing new unique matches, the accumulator stops once the
accumulated count is no longer below the maximum and returns exactly 3
matches — the accumulated list of 4 truncated to the maximum — after
requesting only pages 1 and 2. -/
theorem max_results_truncation :
    fetch_all envC4 "country:GT" "" 3 1.0 = .ok outC4 ∧
    outC4.matchList.length = 3 ∧
    outC4.total_reported = 5 ∧
    outC4.matchList = outC4.full.take 3 ∧
    outC4.full.length = 4 ∧
    outC4.pages = [1, 2] :=
  ⟨rfl, rfl, rfl, rfl, rfl, rfl⟩

end Shodan

namespace Shodan

/-- Claim C6: when the fetch of any page after the first raises `SystemExit`
(a non-200 HTTP status), the run still completes normally.  First clause:
from every state the loop can be in — any accumulated list, any current page
`page`, so the failing page `page + 1` is an arbitrary page ≥ 2 — a
`SystemExit` answer stops the loop, appends the warning naming that page to
the stderr log and keeps exactly the matches accumulated so far.  Second
clause: every normal return of the accumulator makes the run complete
successfully, with the accumulated matches handed to totals, facets, table
and summary, the loop's warnings on stderr, and no fatal exit. -/
theorem subsequent_page_failure_recovers :
    (∀ (fp : String → Nat → String → PyResult Response) (q : String)
      (maxR : Nat) (tot : Int) (fuel : Nat) (ms : List Match) (seen : List Key)
      (page : Nat) (pages : List Nat) (errLog : List String)
      (received : List Match) (msg : String),
      ms.length < maxR → (ms.length : Int) < tot →
      fp q (page + 1) "" = .sysExit msg →
      fetchLoop fp q maxR tot (fuel + 1) ms seen page pages errLog received =
        .ok ⟨ms, pages ++ [page + 1],
          errLog ++ [warn_msg (page + 1) msg], received⟩) ∧
    (∀ (fp : String → Nat → String → PyResult Response) (cfg : Config)
      (q : String) (out : FetchOk),
      build_query cfg.city_filter cfg.additional_filters cfg.prohibited = .ok q →
      fetch_all fp q cfg.facets cfg.max_results cfg.sleep_seconds = .ok out →
      main fp cfg =
        ⟨[.banner q, .totals out.total_reported out.matchList.length,
          .facetsOut out.facets_obj, .table out.matchList,
          .summary out.matchList], out.errLog, none, out.pages⟩) := by
  constructor
  · intro fp q maxR tot fuel ms seen page pages errLog received msg h1 h2 hfail
    simp only [fetchLoop]
    rw [if_pos ⟨h1, h2⟩]
    simp only [hfail]
  · intro fp cfg q out hq hrun
    simp only [main, hq, hrun]

/-- Witness for `subsequent_page_failure_recovers`: pages 1 and 2 succeed
with two new matches each, page 3 fails with HTTP 500.  The first clause is
applied at the state the loop reaches when it requests page 3; the second to
the whole run, whose report carries the four matches of pages 1 and 2 and
whose stderr warning names page 3. -/
theorem subsequent_page_failure_recovers_witness :
    fetchLoop envC6 "country:GT" 1000 10 1 [mA, mB, mC, mD]
        [keyOf mD, keyOf mC, keyOf mB, keyOf mA] 2 [1, 2] [] [mA, mB, mC, mD] =
      .ok ⟨[mA, mB, mC, mD], [1, 2, 3],
        [warn_msg 3 "ERROR HTTP 500 al consultar Shodan."], [mA, mB, mC, mD]⟩ ∧
    main envC6 defaultConfig =
      ⟨[.banner "country:GT", .totals outC6.total_reported outC6.matchList.length,
        .facetsOut outC6.facets_obj, .table outC6.matchList,
        .summary outC6.matchList], outC6.errLog, none, outC6.pages⟩ :=
  ⟨subsequent_page_failure_recovers.1 envC6 "country:GT" 1000 10 0 [mA, mB, mC, mD]
      [keyOf mD, keyOf mC, keyOf mB, keyOf mA] 2 [1, 2] [] [mA, mB, mC, mD]
      "ERROR HTTP 500 al consultar Shodan." (by decide) (by decide) rfl,
    subsequent_page_failure_recovers.2 envC6 defaultConfig "country:GT" outC6
      rfl rfl⟩

/-- Claim C7 (amended): a first-page fetch failure — `SystemExit` from a
non-200 status or a propagating `requests` exception — terminates the whole
run with no totals, facets, table or summary.  The banner, however, is
printed before the fetch, so stdout is exactly the banner block rather than
empty (see `banner_despite_first_page_failure_cex` against the original
claim). -/
theorem first_page_failure_aborts (fp : String → Nat → String → PyResult Response)
    (cfg : Config) (q msg : String)
    (hq : build_query cfg.city_filter cfg.additional_filters cfg.prohibited = .ok q) :
    (fp q 1 cfg.facets = .sysExit msg →
      main fp cfg = ⟨[.banner q], [], some (.sysExit msg), []⟩) ∧
    (fp q 1 cfg.facets = .exn msg →
      main fp cfg = ⟨[.banner q], [], some (.exn msg), []⟩) := by
  constructor
  · intro h1
    simp only [main, hq, fetch_all, h1]
  · intro h1
    simp only [main, hq, fetch_all, h1]

/-- Witness for `first_page_failure_aborts` under both failure kinds. -/
theorem first_page_failure_aborts_witness :
    main envFail defaultConfig =
      ⟨[.banner "country:GT"], [],
        some (.sysExit "ERROR HTTP 503 al consultar Shodan."), []⟩ ∧
    main envConnErr defaultConfig =
      ⟨[.banner "country:GT"], [], some (.exn "ConnectionError"), []⟩ :=
  ⟨(first_page_failure_aborts envFail defaultConfig "country:GT"
      "ERROR HTTP 503 al consultar Shodan." rfl).1 rfl,
    (first_page_failure_aborts envConnErr defaultConfig "country:GT"
      "ConnectionError" rfl).2 rfl⟩

/-- Counterexample to claim C7 as stated: with the default configuration and
a first page failing fatally, the run does terminate with the error, yet
stdout is not empty — the banner, which the claim lists as report output, was
already printed before the fetch. -/
theorem banner_despite_first_page_failure_cex :
    (main envFail defaultConfig).exit =
      some (.sysExit "ERROR HTTP 503 al consultar Shodan.") ∧
    (main envFail defaultConfig).stdout ≠ [] := by
  constructor
  · rfl
  · decide

/-- Claim C10: the pagination loop's `except` catches only `SystemExit`; an
exception raised by the HTTP library itself on any subsequent page is not
caught and aborts the whole run.  First clause: from every state the loop can
be in — so the failing page `page + 1` is an arbitrary page ≥ 2 — a library
exception makes the loop itself end in that exception, with nothing caught
and no warning logged.  Second clause: such a loop outcome propagates out of
`fetch_all` as a fatal error.  Third clause: a fatal `fetch_all` ends the run
with the error and nothing printed beyond the banner. -/
theorem subsequent_page_exception_aborts :
    (∀ (fp : String → Nat → String → PyResult Response) (q : String)
      (maxR : Nat) (tot : Int) (fuel : Nat) (ms : List Match) (seen : List Key)
      (page : Nat) (pages : List Nat) (errLog : List String)
      (received : List Match) (msg : String),
      ms.length < maxR → (ms.length : Int) < tot →
      fp q (page + 1) "" = .exn msg →
      fetchLoop fp q maxR tot (fuel + 1) ms seen page pages errLog received =
        .exn msg) ∧
    (∀ (fp : String → Nat → String → PyResult Response) (q facets : String)
      (maxR : Nat) (sleep : Float) (p1 : Response) (msg : String),
      fp q 1 facets = .ok p1 →
      fetchLoop fp q maxR p1.total (maxR + 1)
        (add_batch [] [] 0 p1.matchList).2.1 (add_batch [] [] 0 p1.matchList).1
        1 [1] [] p1.matchList = .exn msg →
      fetch_all fp q facets maxR sleep = .fatal (.exn msg)) ∧
    (∀ (fp : String → Nat → String → PyResult Response) (cfg : Config)
      (q msg : String),
      build_query cfg.city_filter cfg.additional_filters cfg.prohibited = .ok q →
      fetch_all fp q cfg.facets cfg.max_results cfg.sleep_seconds =
        .fatal (.exn msg) →
      main fp cfg = ⟨[.banner q], [], some (.exn msg), []⟩) := by
  refine ⟨?_, ?_, ?_⟩
  · intro fp q maxR tot fuel ms seen page pages errLog received msg h1 h2 hfail
    simp only [fetchLoop]
    rw [if_pos ⟨h1, h2⟩]
    simp only [hfail]
  · intro fp q facets maxR sleep p1 msg h1 hloop
    simp only [fetch_all, h1, hloop]
  · intro fp cfg q msg hq hfa
    simp only [main, hq, hfa]

/-- Witness for `subsequent_page_exception_aborts`: pages 1 and 2 succeed,
page 3 raises a timeout.  The first clause is applied at the state the loop
reaches when it requests page 3; the others chain it into the fatal end of
the whole run. -/
theorem subsequent_page_exception_aborts_witness :
    fetchLoop envC10 "country:GT" 1000 10 1 [mA, mB, mC, mD]
        [keyOf mD, keyOf mC, keyOf mB, keyOf mA] 2 [1, 2] [] [mA, mB, mC, mD] =
      .exn "ReadTimeout" ∧
    fetch_all envC10 "country:GT" FACETS MAX_RESULTS SLEEP_SECONDS =
      .fatal (.exn "ReadTimeout") ∧
    main envC10 defaultConfig =
      ⟨[.banner "country:GT"], [], some (.exn "ReadTimeout"), []⟩ :=
  ⟨subsequent_page_exception_aborts.1 envC10 "country:GT" 1000 10 0 [mA, mB, mC, mD]
      [keyOf mD, keyOf mC, keyOf mB, keyOf mA] 2 [1, 2] [] [mA, mB, mC, mD]
      "ReadTimeout" (by decide) (by decide) rfl,
    subsequent_page_exception_aborts.2.1 envC10 "country:GT" FACETS MAX_RESULTS
      SLEEP_SECONDS respAB "ReadTimeout" rfl rfl,
    subsequent_page_exception_aborts.2.2 envC10 defaultConfig "country:GT"
      "ReadTimeout" rfl rfl⟩

end Shodan
